import Mathlib

/-!
Shallow embedding of the LS-8 CPU emulator (`cpu.py`) and proofs about it.

The emulator is a single Python class `CPU`.  We embed it as a Lean structure
`CPU` holding the same fields, and embed each Python method as a function in
the monad `PyM`, which models Python's in-place mutation of the object
together with exceptions and text written to standard output:
a computation takes the current object state and returns the updated state,
the list of output chunks emitted (in order), and either a result value or
the exception that was raised.  Mutations performed before a raise persist,
exactly as for a Python object.

Python integers are unbounded, so machine values are `Int`.  The translation
conventions, each noted again at its point of use:
  * `x & 255` (and `x & 7`) on a Python int is `x mod 256` (`x mod 8`), i.e.
    `Int.emod`, whose result has the sign of the (positive) divisor, as in
    Python;
  * `x // y` and `x % y` are Python floor division / floor remainder:
    `Int.fdiv` / `Int.fmod`;
  * `~x` is `-(x + 1)`;
  * `x >> n` is arithmetic shift, i.e. floor division by `2 ^ n`; `x << n`
    is `x * 2 ^ n`; a negative shift count raises ValueError;
  * general `x & y` / `x | y` / `x ^ y` are two's-complement bitwise
    operations: `Int.land` / `Int.lor` / `Int.xor`;
  * Python list indexing `xs[i]` accepts `-len xs ≤ i < len xs`, counting
    from the end when `i < 0`, and raises IndexError otherwise.
-/

namespace LS8

/-- Exceptions the interpreted code can raise. -/
inductive Err where
  /-- Python `TypeError` (bad operand type, wrong number of call arguments). -/
  | typeError : Err
  /-- Python `IndexError`: list index out of range. -/
  | indexError : Err
  /-- Python `ValueError` (e.g. negative shift count). -/
  | valueError : Err
  /-- `raise Exception("Division by zero error")` in `ALU_DIV` / `ALU_MOD`. -/
  | divisionByZero : Err
  /-- `raise Exception(f'Undefined opcode ...')` in `step`, with the byte. -/
  | undefinedOpcode (b : Int) : Err
  /-- `raise Exception("Unsupported ALU operation")` in `alu`. -/
  | unsupportedALU : Err
deriving DecidableEq

instance {ε α : Type} [DecidableEq ε] [DecidableEq α] :
    DecidableEq (Except ε α) := fun a b =>
  match a, b with
  | Except.ok x, Except.ok y =>
      if h : x = y then Decidable.isTrue (by rw [h])
      else Decidable.isFalse (by intro hh; injection hh; exact h (by assumption))
  | Except.ok _, Except.error _ => Decidable.isFalse (by intro hh; injection hh)
  | Except.error _, Except.ok _ => Decidable.isFalse (by intro hh; injection hh)
  | Except.error x, Except.error y =>
      if h : x = y then Decidable.isTrue (by rw [h])
      else Decidable.isFalse (by intro hh; injection hh; exact h (by assumption))

/-- A Python value appearing where the source may produce a non-int: an int,
or a bound-method object (attribute access on a method declared without
`@property`). -/
inductive PyVal where
  | int (i : Int)
  | boundMethod
deriving DecidableEq

/-- The fields of the Python `CPU` object, exactly as set up in `__init__`.
`interrupts_enabled` (note the trailing `d`) is a distinct attribute that
`__init__` never creates; only `IRET` assigns it, so it starts absent. -/
structure CPU where
  /-- `self.R = [0] * 8`, then `self.R[7] = 0xF4`. -/
  R : List Int
  /-- Program counter. -/
  PC : Int
  /-- Instruction register. -/
  IR : Int
  /-- Memory address register. -/
  MAR : Int
  /-- Memory data register. -/
  MDR : Int
  /-- Flags register. -/
  FL : Int
  /-- `self.RAM = [0] * 256`. -/
  RAM : List Int
  /-- `self.interrupts_enable = True` (sic) from `__init__`. -/
  interrupts_enable : Bool
  /-- `self.HALT = False`. -/
  HALT : Bool
  /-- `self.PC_SET = False`. -/
  PC_SET : Bool
  /-- Operand scratch register A. -/
  opA : Int
  /-- Operand scratch register B. -/
  opB : Int
  /-- The attribute `interrupts_enabled` assigned only by `IRET`. -/
  interrupts_enabled : Option Bool
deriving DecidableEq

/-- The state `__init__` constructs. -/
def initialCPU : CPU where
  R := [0, 0, 0, 0, 0, 0, 0, 0xF4]
  PC := 0
  IR := 0
  MAR := 0
  MDR := 0
  FL := 0
  RAM := List.replicate 256 0
  interrupts_enable := true
  HALT := false
  PC_SET := false
  opA := 0
  opB := 0
  interrupts_enabled := none

/-- A Python method body: state in, (state, output chunks, result-or-raise)
out. -/
def PyM (α : Type) : Type := CPU → CPU × List String × Except Err α

namespace PyM

def pure {α : Type} (a : α) : PyM α := fun c => (c, [], Except.ok a)

def bind {α β : Type} (m : PyM α) (f : α → PyM β) : PyM β := fun c =>
  match m c with
  | (c1, out, Except.ok a) =>
      ((f a c1).1, out ++ (f a c1).2.1, (f a c1).2.2)
  | (c1, out, Except.error e) => (c1, out, Except.error e)

end PyM

instance : Monad PyM where
  pure := PyM.pure
  bind := PyM.bind

/-- Read the object (`self`). -/
def getCPU : PyM CPU := fun c => (c, [], Except.ok c)

/-- Assign object fields. -/
def modifyCPU (f : CPU → CPU) : PyM Unit := fun c => (f c, [], Except.ok ())

/-- Raise an exception. -/
def raise {α : Type} (e : Err) : PyM α := fun c => (c, [], Except.error e)

/-- Run a pure `Except` computation (indexing, operators) inside a method. -/
def liftE {α : Type} (r : Except Err α) : PyM α := fun c => (c, [], r)

/-- `print(s)` and `print(s, end='')`: append the rendered text to stdout. -/
def py_print (s endl : String) : PyM Unit := fun c =>
  (c, [s ++ endl], Except.ok ())

/-- Python `~x`. -/
def pyNot (x : Int) : Int := -(x + 1)

/-- Python `x & y` on ints: two's-complement bitwise AND. -/
def pyAnd (x y : Int) : Int := Int.land x y

/-- Python `x | y` on ints: two's-complement bitwise OR. -/
def pyOr (x y : Int) : Int := Int.lor x y

/-- Python `x ^ y` on ints: two's-complement bitwise XOR. -/
def pyXor (x y : Int) : Int := Int.xor x y

/-- Python `x << n`: `x * 2 ^ n`; negative shift count raises ValueError. -/
def pyShl (x n : Int) : Except Err Int :=
  if n < 0 then Except.error Err.valueError
  else Except.ok (x * 2 ^ n.toNat)

/-- Python `x >> n`: arithmetic shift, i.e. floor division by `2 ^ n`;
negative shift count raises ValueError. -/
def pyShr (x n : Int) : Except Err Int :=
  if n < 0 then Except.error Err.valueError
  else Except.ok (Int.fdiv x (2 ^ n.toNat))

/-- Python list read `xs[i]`: negative indices count from the end;
out of range raises IndexError. -/
def pyListGet (xs : List Int) (i : Int) : Except Err Int :=
  if 0 ≤ i ∧ i < (xs.length : Int) then Except.ok (xs.getD i.toNat 0)
  else if -(xs.length : Int) ≤ i ∧ i < 0 then
    Except.ok (xs.getD (i + xs.length).toNat 0)
  else Except.error Err.indexError

/-- Python list write `xs[i] = v`, same index rules as `pyListGet`. -/
def pyListSet (xs : List Int) (i v : Int) : Except Err (List Int) :=
  if 0 ≤ i ∧ i < (xs.length : Int) then Except.ok (xs.set i.toNat v)
  else if -(xs.length : Int) ≤ i ∧ i < 0 then
    Except.ok (xs.set (i + xs.length).toNat v)
  else Except.error Err.indexError

/-- `self.R[i]` (read). -/
def Rget (i : Int) : PyM Int := fun c => (c, [], pyListGet c.R i)

/-- `self.R[i] = v`. -/
def Rset (i v : Int) : PyM Unit := fun c =>
  match pyListSet c.R i v with
  | Except.ok R1 => ({c with R := R1}, [], Except.ok ())
  | Except.error e => (c, [], Except.error e)

/-- `self.RAM[i]` (read). -/
def RAMget (i : Int) : PyM Int := fun c => (c, [], pyListGet c.RAM i)

/-- `self.RAM[i] = v`. -/
def RAMset (i v : Int) : PyM Unit := fun c =>
  match pyListSet c.RAM i v with
  | Except.ok M1 => ({c with RAM := M1}, [], Except.ok ())
  | Except.error e => (c, [], Except.error e)

/-! ### Flags (`flag`, `set_flag`, properties `L`, `G`, `E`) -/

/-- The value `flag(self, j)` returns, as a function of `FL`:
`i = j & 7; return (self.FL & 2 ** i) >> i`.
`x & 7` is `x mod 8`; `>>` on ints is arithmetic right shift, here applied
to the non-negative `FL & 2 ** i`, i.e. floor division by `2 ^ i`. -/
def flag_val (FL j : Int) : Int :=
  let i := (j.emod 8).toNat
  Int.fdiv (pyAnd FL (2 ^ i)) (2 ^ i)

/-- `def flag(self, j)`: read the `j`-th flag bit. -/
def CPU.flag (c : CPU) (j : Int) : Int := flag_val c.FL j

/-- The value `set_flag(self, j, b)` leaves in `FL`:
`i = j & 7; self.FL -= self.FL & 2 ** i; if b: self.FL += 2 ** i`. -/
def set_flag_val (FL j : Int) (b : Bool) : Int :=
  let i := (j.emod 8).toNat
  let cleared := FL - pyAnd FL (2 ^ i)
  if b then cleared + 2 ^ i else cleared

/-- `def set_flag(self, j, b)`. -/
def set_flag (j : Int) (b : Bool) : PyM Unit :=
  modifyCPU fun c => {c with FL := set_flag_val c.FL j b}

/-- `@property def L(self): return self.flag(2)`. -/
def CPU.L (c : CPU) : Int := c.flag 2

/-- `@property def G(self): return self.flag(1)`. -/
def CPU.G (c : CPU) : Int := c.flag 1

/-- `@property def E(self): return self.flag(0)`. -/
def CPU.E (c : CPU) : Int := c.flag 0

/-- `def set_L(self, b): self.set_flag(2, b)`. -/
def set_L (b : Bool) : PyM Unit := set_flag 2 b

/-- `def set_G(self, b): self.set_flag(1, b)`. -/
def set_G (b : Bool) : PyM Unit := set_flag 1 b

/-- `def set_E(self, b): self.set_flag(0, b)`. -/
def set_E (b : Bool) : PyM Unit := set_flag 0 b

/-! ### Memory port and stack -/

/-- `def ram_read(self): self.MDR = self.RAM[self.MAR]`. -/
def ram_read : PyM Unit := do
  let c ← getCPU
  let v ← liftE (pyListGet c.RAM c.MAR)
  modifyCPU fun c1 => {c1 with MDR := v}

/-- `def ram_write(self, value, address): self.RAM[self.MAR] = self.MDR`.
The body ignores both parameters, but they have no defaults, so Python
raises TypeError when a call site does not supply exactly two arguments;
`args` is the argument list supplied at the call site. -/
def ram_write (args : List Int) : PyM Unit := do
  if args.length ≠ 2 then raise Err.typeError
  else do
    let c ← getCPU
    RAMset c.MAR c.MDR

/-- `def SP(self): return self.R[7]` — declared WITHOUT `@property` (unlike
`IM`, `IS`, `L`, `G`, `E`), so the attribute access `self.SP` evaluates to
the bound method object itself, not to the value of `R[7]`. -/
def CPU.SP (_ : CPU) : PyVal := PyVal.boundMethod

/-- `def set_SP(self, value): self.R[7] = value`. -/
def set_SP (value : Int) : PyM Unit := Rset 7 value

/-- Python `x - n` where `x` came from attribute access: ints subtract;
a bound method supports no arithmetic, so TypeError. -/
def pyValSub : PyVal → Int → Except Err Int
  | PyVal.int i, n => Except.ok (i - n)
  | PyVal.boundMethod, _ => Except.error Err.typeError

/-- Python `x + n`, as `pyValSub`. -/
def pyValAdd : PyVal → Int → Except Err Int
  | PyVal.int i, n => Except.ok (i + n)
  | PyVal.boundMethod, _ => Except.error Err.typeError

/-- Python `xs[x]`: a list index must be an int; a bound method as index
raises TypeError. -/
def pyValIndexGet (xs : List Int) : PyVal → Except Err Int
  | PyVal.int i => pyListGet xs i
  | PyVal.boundMethod => Except.error Err.typeError

/-- Python `xs[x] = v`, same index rules as `pyValIndexGet`. -/
def pyValIndexSet (xs : List Int) (x : PyVal) (v : Int) :
    Except Err (List Int) :=
  match x with
  | PyVal.int i => pyListSet xs i v
  | PyVal.boundMethod => Except.error Err.typeError

/-- `def pop(self)`:
`val = self.RAM[self.SP]; self.RAM[self.SP] = 0;`
`self.set_SP((self.SP + 1) & 255); return val`.
Every use of `self.SP` is the bound method object. -/
def pop : PyM Int := do
  let c ← getCPU
  let val ← liftE (pyValIndexGet c.RAM c.SP)
  let c1 ← getCPU
  let M1 ← liftE (pyValIndexSet c1.RAM c1.SP 0)
  modifyCPU fun c2 => {c2 with RAM := M1}
  let c2 ← getCPU
  let sp1 ← liftE (pyValAdd c2.SP 1)
  set_SP (sp1.emod 256)
  pure val

/-- `def push(self, val)`:
`self.set_SP((self.SP - 1) & 255); self.RAM[self.SP] = val & 255`. -/
def push (val : Int) : PyM Unit := do
  let c ← getCPU
  let sp1 ← liftE (pyValSub c.SP 1)
  set_SP (sp1.emod 256)
  let c1 ← getCPU
  let M1 ← liftE (pyValIndexSet c1.RAM c1.SP (val.emod 256))
  modifyCPU fun c2 => {c2 with RAM := M1}

/-! ### ALU operations -/

/-- `ALU_AND`: `self.R[reg_a] = self.R[reg_a] & self.R[reg_b]`. -/
def ALU_AND (reg_a reg_b : Int) : PyM Unit := do
  let ra ← Rget reg_a
  let rb ← Rget reg_b
  Rset reg_a (pyAnd ra rb)

/-- `ALU_OR`: `self.R[reg_a] = self.R[reg_a] | self.R[reg_b]`. -/
def ALU_OR (reg_a reg_b : Int) : PyM Unit := do
  let ra ← Rget reg_a
  let rb ← Rget reg_b
  Rset reg_a (pyOr ra rb)

/-- `ALU_XOR`: `self.R[reg_a] = self.R[reg_a] ^ self.R[reg_b]`. -/
def ALU_XOR (reg_a reg_b : Int) : PyM Unit := do
  let ra ← Rget reg_a
  let rb ← Rget reg_b
  Rset reg_a (pyXor ra rb)

/-- `ALU_NOT`: `self.R[reg_a] = ~ self.R[reg_a]` — note: NO `& 255` mask. -/
def ALU_NOT (reg_a reg_b : Int) : PyM Unit := do
  let ra ← Rget reg_a
  Rset reg_a (pyNot ra)

/-- `ALU_SHL`: `self.R[reg_a] = (self.R[reg_a] << self.R[reg_b]) & 255`. -/
def ALU_SHL (reg_a reg_b : Int) : PyM Unit := do
  let ra ← Rget reg_a
  let rb ← Rget reg_b
  let v ← liftE (pyShl ra rb)
  Rset reg_a (v.emod 256)

/-- `ALU_SHR`: `self.R[reg_a] = self.R[reg_a] >> self.R[reg_b]` (no mask). -/
def ALU_SHR (reg_a reg_b : Int) : PyM Unit := do
  let ra ← Rget reg_a
  let rb ← Rget reg_b
  let v ← liftE (pyShr ra rb)
  Rset reg_a v

/-- `ALU_MOD`: raise on `R[reg_b] == 0`, else
`self.R[reg_a] = (self.R[reg_a] % self.R[reg_b]) & 255`
(`%` is Python floor remainder). -/
def ALU_MOD (reg_a reg_b : Int) : PyM Unit := do
  let rb ← Rget reg_b
  if rb = 0 then raise Err.divisionByZero
  else do
    let ra ← Rget reg_a
    Rset reg_a ((Int.fmod ra rb).emod 256)

/-- `ALU_INC`: `self.R[reg_a] = (self.R[reg_a] + 1) & 255`. -/
def ALU_INC (reg_a reg_b : Int) : PyM Unit := do
  let ra ← Rget reg_a
  Rset reg_a ((ra + 1).emod 256)

/-- `ALU_DEC`: `self.R[reg_a] = (self.R[reg_a] - 1) & 255`. -/
def ALU_DEC (reg_a reg_b : Int) : PyM Unit := do
  let ra ← Rget reg_a
  Rset reg_a ((ra - 1).emod 256)

/-- `ALU_ADD`: `self.R[reg_a] = (self.R[reg_a] + self.R[reg_b]) & 255`. -/
def ALU_ADD (reg_a reg_b : Int) : PyM Unit := do
  let ra ← Rget reg_a
  let rb ← Rget reg_b
  Rset reg_a ((ra + rb).emod 256)

/-- `ALU_SUB`: `self.R[reg_a] = (self.R[reg_a] - self.R[reg_b]) & 255`. -/
def ALU_SUB (reg_a reg_b : Int) : PyM Unit := do
  let ra ← Rget reg_a
  let rb ← Rget reg_b
  Rset reg_a ((ra - rb).emod 256)

/-- `ALU_MUL`: `self.R[reg_a] = (self.R[reg_a] * self.R[reg_b]) & 255`. -/
def ALU_MUL (reg_a reg_b : Int) : PyM Unit := do
  let ra ← Rget reg_a
  let rb ← Rget reg_b
  Rset reg_a ((ra * rb).emod 256)

/-- `ALU_DIV`: raise on `R[reg_b] == 0`, else
`self.R[reg_a] = (self.R[reg_a] // self.R[reg_b]) & 255`
(`//` is Python floor division). -/
def ALU_DIV (reg_a reg_b : Int) : PyM Unit := do
  let rb ← Rget reg_b
  if rb = 0 then raise Err.divisionByZero
  else do
    let ra ← Rget reg_a
    Rset reg_a ((Int.fdiv ra rb).emod 256)

/-- `ALU_CMP`: clear L, G, E; then set exactly one by comparing
`self.R[reg_a]` with `self.R[reg_b]`.  (The Python `elif` re-reads the
registers; the reads are pure, so reading once is equivalent.) -/
def ALU_CMP (reg_a reg_b : Int) : PyM Unit := do
  set_L false
  set_G false
  set_E false
  let ra ← Rget reg_a
  let rb ← Rget reg_b
  if ra < rb then set_L true
  else if ra > rb then set_G true
  else set_E true

/-- `create_ALU_table`: the dict from operation name to bound method,
as a lookup function. -/
def ALU_table (op : String) : Option (Int → Int → PyM Unit) :=
  if op = "INC" then some ALU_INC
  else if op = "DEC" then some ALU_DEC
  else if op = "NOT" then some ALU_NOT
  else if op = "ADD" then some ALU_ADD
  else if op = "SUB" then some ALU_SUB
  else if op = "MUL" then some ALU_MUL
  else if op = "DIV" then some ALU_DIV
  else if op = "MOD" then some ALU_MOD
  else if op = "CMP" then some ALU_CMP
  else if op = "AND" then some ALU_AND
  else if op = "OR" then some ALU_OR
  else if op = "XOR" then some ALU_XOR
  else if op = "SHL" then some ALU_SHL
  else if op = "SHR" then some ALU_SHR
  else none

/-- `def alu(self, op, reg_a, reg_b)`: look up the table, raise
"Unsupported ALU operation" on a miss, else call the entry. -/
def alu (op : String) (reg_a reg_b : Int) : PyM Unit :=
  match ALU_table op with
  | none => raise Err.unsupportedALU
  | some f => f reg_a reg_b

/-! ### Opcode handlers -/

/-- `CMP`: `self.alu('CMP', self.opA, self.opB)` — note: operands are passed
to the ALU without any `& 7` masking. -/
def CMP : PyM Unit := do
  let c ← getCPU
  alu "CMP" c.opA c.opB

/-- `JMP`: `self.PC_SET = True; self.PC = self.R[self.opA & 7]`. -/
def JMP : PyM Unit := do
  modifyCPU fun c => {c with PC_SET := true}
  let c ← getCPU
  let v ← Rget (c.opA.emod 8)
  modifyCPU fun c1 => {c1 with PC := v}

/-- `JEQ`: jump when the `E` flag is set (Python truthiness of the int). -/
def JEQ : PyM Unit := do
  let c ← getCPU
  if c.E ≠ 0 then do
    modifyCPU fun c1 => {c1 with PC_SET := true}
    let c1 ← getCPU
    let v ← Rget (c1.opA.emod 8)
    modifyCPU fun c2 => {c2 with PC := v}
  else pure ()

/-- `JNE`: jump when the `E` flag is clear. -/
def JNE : PyM Unit := do
  let c ← getCPU
  if c.E = 0 then do
    modifyCPU fun c1 => {c1 with PC_SET := true}
    let c1 ← getCPU
    let v ← Rget (c1.opA.emod 8)
    modifyCPU fun c2 => {c2 with PC := v}
  else pure ()

/-- `NOP`: `pass`. -/
def NOP : PyM Unit := pure ()

/-- `HLT`: `self.HALT = True`. -/
def HLT : PyM Unit := modifyCPU fun c => {c with HALT := true}

/-- `RET`: `self.PC_SET = True; self.PC = self.pop()`. -/
def RET : PyM Unit := do
  modifyCPU fun c => {c with PC_SET := true}
  let v ← pop
  modifyCPU fun c1 => {c1 with PC := v}

/-- `IRET`: pop R6..R0, FL, PC; then `self.interrupts_enabled = True`
(an attribute distinct from the `interrupts_enable` set in `__init__`). -/
def IRET : PyM Unit := do
  modifyCPU fun c => {c with PC_SET := true}
  let v6 ← pop
  Rset 6 v6
  let v5 ← pop
  Rset 5 v5
  let v4 ← pop
  Rset 4 v4
  let v3 ← pop
  Rset 3 v3
  let v2 ← pop
  Rset 2 v2
  let v1 ← pop
  Rset 1 v1
  let v0 ← pop
  Rset 0 v0
  let fl ← pop
  modifyCPU fun c => {c with FL := fl}
  let pc ← pop
  modifyCPU fun c => {c with PC := pc}
  modifyCPU fun c => {c with interrupts_enabled := some true}

/-- `PUSH`: `self.push(self.R[self.opA & 7])`. -/
def PUSH : PyM Unit := do
  let c ← getCPU
  let v ← Rget (c.opA.emod 8)
  push v

/-- `POP`: `self.R[self.opA & 7] = self.pop()`. -/
def POP : PyM Unit := do
  let v ← pop
  let c ← getCPU
  Rset (c.opA.emod 8) v

/-- `PRN`: `print(self.R[self.opA & 7])` — decimal rendering plus newline. -/
def PRN : PyM Unit := do
  let c ← getCPU
  let v ← Rget (c.opA.emod 8)
  py_print (toString v) "\n"

/-- Python `chr(v)`: the one-character string with code point `v`;
out of range raises ValueError.  (Reachable values here are bytes, which
are always valid code points.) -/
def pyChr (v : Int) : Except Err String :=
  if 0 ≤ v ∧ v < 1114112 then Except.ok (String.singleton (Char.ofNat v.toNat))
  else Except.error Err.valueError

/-- `PRA`: `print(chr(self.R[self.opA & 7]), end='')`.  (Defined in the
class but absent from `create_opcode_table`, so unreachable via `step`.) -/
def PRA : PyM Unit := do
  let c ← getCPU
  let v ← Rget (c.opA.emod 8)
  let s ← liftE (pyChr v)
  py_print s ""

/-- `CALL`: set `PC_SET`, push `(PC + 2) & 255`, `PC = R[opA & 7]`. -/
def CALL : PyM Unit := do
  modifyCPU fun c => {c with PC_SET := true}
  let c ← getCPU
  push ((c.PC + 2).emod 256)
  let c1 ← getCPU
  let v ← Rget (c1.opA.emod 8)
  modifyCPU fun c2 => {c2 with PC := v}

/-- `INT`: stubbed in the source (`pass`). -/
def INT : PyM Unit := pure ()

/-- `JGT`: jump when the `G` flag is set. -/
def JGT : PyM Unit := do
  let c ← getCPU
  if c.G ≠ 0 then do
    modifyCPU fun c1 => {c1 with PC_SET := true}
    let c1 ← getCPU
    let v ← Rget (c1.opA.emod 8)
    modifyCPU fun c2 => {c2 with PC := v}
  else pure ()

/-- `JLT`: jump when the `L` flag is set. -/
def JLT : PyM Unit := do
  let c ← getCPU
  if c.L ≠ 0 then do
    modifyCPU fun c1 => {c1 with PC_SET := true}
    let c1 ← getCPU
    let v ← Rget (c1.opA.emod 8)
    modifyCPU fun c2 => {c2 with PC := v}
  else pure ()

/-- `JLE`: jump when `L` or `E` is set. -/
def JLE : PyM Unit := do
  let c ← getCPU
  if c.L ≠ 0 ∨ c.E ≠ 0 then do
    modifyCPU fun c1 => {c1 with PC_SET := true}
    let c1 ← getCPU
    let v ← Rget (c1.opA.emod 8)
    modifyCPU fun c2 => {c2 with PC := v}
  else pure ()

/-- `JGE`: jump when `G` or `E` is set. -/
def JGE : PyM Unit := do
  let c ← getCPU
  if c.G ≠ 0 ∨ c.E ≠ 0 then do
    modifyCPU fun c1 => {c1 with PC_SET := true}
    let c1 ← getCPU
    let v ← Rget (c1.opA.emod 8)
    modifyCPU fun c2 => {c2 with PC := v}
  else pure ()

/-- `INC`: `self.alu('INC', self.opA, self.opB)` (operands unmasked). -/
def INC : PyM Unit := do
  let c ← getCPU
  alu "INC" c.opA c.opB

/-- `DEC`: `self.alu('DEC', self.opA, self.opB)`. -/
def DEC : PyM Unit := do
  let c ← getCPU
  alu "DEC" c.opA c.opB

/-- `NOT`: `self.alu('NOT', self.opA, self.opB)`. -/
def NOT : PyM Unit := do
  let c ← getCPU
  alu "NOT" c.opA c.opB

/-- `LDI`: `self.R[self.opA & 7] = self.opB`. -/
def LDI : PyM Unit := do
  let c ← getCPU
  Rset (c.opA.emod 8) c.opB

/-- `LD`: `self.MAR = self.R[self.opB & 7]; self.ram_read();`
`self.R[self.opA & 7] = self.MDR`. -/
def LD : PyM Unit := do
  let c ← getCPU
  let v ← Rget (c.opB.emod 8)
  modifyCPU fun c1 => {c1 with MAR := v}
  ram_read
  let c1 ← getCPU
  Rset (c1.opA.emod 8) c1.MDR

/-- `ST`: `self.MAR = self.R[self.opA & 7]; self.MDR = self.R[self.opB & 7];`
`self.ram_write()` — called with NO arguments. -/
def ST : PyM Unit := do
  let c ← getCPU
  let va ← Rget (c.opA.emod 8)
  modifyCPU fun c1 => {c1 with MAR := va}
  let c1 ← getCPU
  let vb ← Rget (c1.opB.emod 8)
  modifyCPU fun c2 => {c2 with MDR := vb}
  ram_write []

/-- `ADD`: `self.alu('ADD', self.opA, self.opB)`. -/
def ADD : PyM Unit := do
  let c ← getCPU
  alu "ADD" c.opA c.opB

/-- `SUB`: `self.alu('SUB', self.opA, self.opB)`. -/
def SUB : PyM Unit := do
  let c ← getCPU
  alu "SUB" c.opA c.opB

/-- `MUL`: `self.alu('MUL', self.opA, self.opB)`. -/
def MUL : PyM Unit := do
  let c ← getCPU
  alu "MUL" c.opA c.opB

/-- `DIV`: `self.alu('DIV', self.opA, self.opB)`. -/
def DIV : PyM Unit := do
  let c ← getCPU
  alu "DIV" c.opA c.opB

/-- `MOD`: `self.alu('MOD', self.opA, self.opB)`. -/
def MOD : PyM Unit := do
  let c ← getCPU
  alu "MOD" c.opA c.opB

/-- `AND`: `self.alu('AND', self.opA, self.opB)`. -/
def AND : PyM Unit := do
  let c ← getCPU
  alu "AND" c.opA c.opB

/-- `OR`: `self.alu('OR', self.opA, self.opB)`. -/
def OR : PyM Unit := do
  let c ← getCPU
  alu "OR" c.opA c.opB

/-- `XOR`: `self.alu('XOR', self.opA, self.opB)`. -/
def XOR : PyM Unit := do
  let c ← getCPU
  alu "XOR" c.opA c.opB

/-- `SHL`: `self.alu('SHL', self.opA, self.opB)`. -/
def SHL : PyM Unit := do
  let c ← getCPU
  alu "SHL" c.opA c.opB

/-- `SHR`: `self.alu('SHR', self.opA, self.opB)`. -/
def SHR : PyM Unit := do
  let c ← getCPU
  alu "SHR" c.opA c.opB

/-- `create_opcode_table`: the dict from opcode byte to handler, as a lookup
function.  `0x48` (PRA) has no entry in the source. -/
def opcode_table (b : Int) : Option (PyM Unit) :=
  if b = 0x00 then some NOP
  else if b = 0x01 then some HLT
  else if b = 0x11 then some RET
  else if b = 0x13 then some IRET
  else if b = 0x45 then some PUSH
  else if b = 0x46 then some POP
  else if b = 0x47 then some PRN
  else if b = 0x50 then some CALL
  else if b = 0x52 then some INT
  else if b = 0x54 then some JMP
  else if b = 0x55 then some JEQ
  else if b = 0x56 then some JNE
  else if b = 0x57 then some JGT
  else if b = 0x58 then some JLT
  else if b = 0x59 then some JLE
  else if b = 0x5A then some JGE
  else if b = 0x65 then some INC
  else if b = 0x66 then some DEC
  else if b = 0x69 then some NOT
  else if b = 0x82 then some LDI
  else if b = 0x83 then some LD
  else if b = 0x84 then some ST
  else if b = 0xA0 then some ADD
  else if b = 0xA1 then some SUB
  else if b = 0xA2 then some MUL
  else if b = 0xA3 then some DIV
  else if b = 0xA4 then some MOD
  else if b = 0xA7 then some CMP
  else if b = 0xA8 then some AND
  else if b = 0xAA then some OR
  else if b = 0xAB then some XOR
  else if b = 0xAC then some SHL
  else if b = 0xAD then some SHR
  else none

/-! ### Loader, dispatcher, run loop -/

/-- The loop body of `load`: `for instruction in program:`
`self.RAM[address] = instruction; address += 1`. -/
def loadFrom : List Int → Int → PyM Unit
  | [], _ => pure ()
  | b :: rest, address => do
      RAMset address b
      loadFrom rest (address + 1)

/-- `def load(self, program)`: build the dispatch tables (modelled as the
top-level lookup functions above) and copy the program into RAM from
address 0. -/
def load (program : List Int) : PyM Unit := loadFrom program 0

/-- `def step(self)`: fetch `IR`, `opA`, `opB`; clear `PC_SET`; dispatch on
`IR` (raising on an undefined opcode); then, unless the handler set
`PC_SET`, add 2 to `PC` if bit 6 of `IR` is set and 3 if bit 7 is set —
there is no branch adding 1 when neither high bit is set. -/
def step : PyM Unit := do
  modifyCPU fun c => {c with MAR := c.PC}
  ram_read
  modifyCPU fun c => {c with IR := c.MDR}
  modifyCPU fun c => {c with MAR := (c.MAR + 1).emod 256}
  ram_read
  modifyCPU fun c => {c with opA := c.MDR}
  modifyCPU fun c => {c with MAR := (c.MAR + 1).emod 256}
  ram_read
  modifyCPU fun c => {c with opB := c.MDR}
  modifyCPU fun c => {c with PC_SET := false}
  let c ← getCPU
  match opcode_table c.IR with
  | none => raise (Err.undefinedOpcode c.IR)
  | some op => op
  let c1 ← getCPU
  if !c1.PC_SET then do
    let high6 := Int.fdiv (pyAnd c1.IR (2 ^ 6)) (2 ^ 6)
    let high7 := Int.fdiv (pyAnd c1.IR (2 ^ 7)) (2 ^ 7)
    if high6 ≠ 0 then modifyCPU fun c2 => {c2 with PC := (c2.PC + 2).emod 256}
    else pure ()
    if high7 ≠ 0 then modifyCPU fun c2 => {c2 with PC := (c2.PC + 3).emod 256}
    else pure ()
  else pure ()

/-- The `while not self.HALT: self.step()` loop of `run`, with fuel bounding
the number of iterations (a host may cap the instruction count; every claim
we prove holds for every fuel). -/
def runLoop : Nat → PyM Unit
  | 0 => pure ()
  | n + 1 => do
      let c ← getCPU
      if c.HALT then pure ()
      else do
        step
        runLoop n

/-- `def run(self)`: `print("Running program...")` then the halt loop. -/
def run (fuel : Nat) : PyM Unit := do
  py_print "Running program..." "\n"
  runLoop fuel

/-- Diagnostic text for a fatal error, as surfaced by the host. -/
def errMsg : Err → String
  | Err.typeError => "TypeError"
  | Err.indexError => "IndexError: list index out of range"
  | Err.valueError => "ValueError"
  | Err.divisionByZero => "Division by zero error"
  | Err.undefinedOpcode b => "Undefined opcode " ++ toString b
  | Err.unsupportedALU => "Unsupported ALU operation"

/-- Modelled from the spec: the entry-point shell that invokes `run` is code
of this repository that is not under `src/` (only `cpu.py` is).  Per the
spec, a fatal core error propagating out of the run loop is reported as a
diagnostic and the machine is halted: "DivisionByZero causes the handler to
report the error and assert halt; it is not recoverable by the running
program."  On a normal return the state and output are passed through. -/
def host_run (fuel : Nat) (c : CPU) : CPU × List String :=
  let r := run fuel c
  match r.2.2 with
  | Except.ok _ => (r.1, r.2.1)
  | Except.error e => ({r.1 with HALT := true}, r.2.1 ++ ["error: " ++ errMsg e])

/-- Load a program into the initial machine and execute one `step`:
the configuration in which the single-instruction claims are evaluated. -/
def boot (program : List Int) : CPU × List String × Except Err Unit :=
  (do load program; step) initialCPU

/-- The names of the fourteen ALU operations in `create_ALU_table`. -/
def aluOpNames : List String :=
  ["INC", "DEC", "NOT", "ADD", "SUB", "MUL", "DIV", "MOD", "CMP",
   "AND", "OR", "XOR", "SHL", "SHR"]

/-! ### Evaluation lemmas for the monad and the register file -/

theorem PyM.pure_def {α : Type} (a : α) :
    (Pure.pure a : PyM α) = PyM.pure a := rfl

theorem PyM.bind_def {α β : Type} (m : PyM α) (f : α → PyM β) :
    m >>= f = PyM.bind m f := rfl

theorem pyListGet_in (xs : List Int) (i : Int) (h0 : 0 ≤ i)
    (h1 : i < (xs.length : Int)) :
    pyListGet xs i = Except.ok (xs.getD i.toNat 0) := by
  simp only [pyListGet, if_pos (And.intro h0 h1)]

theorem pyListGet_oob (xs : List Int) (i : Int)
    (h1 : (xs.length : Int) ≤ i) :
    pyListGet xs i = Except.error Err.indexError := by
  have hlen : (0 : Int) ≤ (xs.length : Int) := Int.ofNat_nonneg _
  rw [pyListGet, if_neg, if_neg] <;> omega

theorem pyListSet_in (xs : List Int) (i v : Int) (h0 : 0 ≤ i)
    (h1 : i < (xs.length : Int)) :
    pyListSet xs i v = Except.ok (xs.set i.toNat v) := by
  simp only [pyListSet, if_pos (And.intro h0 h1)]

theorem Rget_in (c : CPU) (i : Int) (h0 : 0 ≤ i)
    (h1 : i < (c.R.length : Int)) :
    Rget i c = (c, [], Except.ok (c.R.getD i.toNat 0)) := by
  simp only [Rget, pyListGet_in c.R i h0 h1]

theorem Rget_oob (c : CPU) (i : Int) (h1 : (c.R.length : Int) ≤ i) :
    Rget i c = (c, [], Except.error Err.indexError) := by
  simp only [Rget, pyListGet_oob c.R i h1]

theorem Rset_in (c : CPU) (i v : Int) (h0 : 0 ≤ i)
    (h1 : i < (c.R.length : Int)) :
    Rset i v c = ({c with R := c.R.set i.toNat v}, [], Except.ok ()) := by
  simp only [Rset, pyListSet_in c.R i v h0 h1]

theorem getD_R_bounds (c : CPU) (i : Int) (hlen : c.R.length = 8)
    (hreg : ∀ v ∈ c.R, 0 ≤ v ∧ v ≤ 255) (h0 : 0 ≤ i) (h : i < 8) :
    0 ≤ c.R.getD i.toNat 0 ∧ c.R.getD i.toNat 0 ≤ 255 := by
  have hn : i.toNat < c.R.length := by omega
  rw [List.getD_eq_getElem c.R 0 hn]
  exact hreg _ (List.getElem_mem hn)

/-! ### The ALU table resolves each operation name to its method -/

theorem alu_INC (x y : Int) : alu "INC" x y = ALU_INC x y := rfl
theorem alu_DEC (x y : Int) : alu "DEC" x y = ALU_DEC x y := rfl
theorem alu_NOT (x y : Int) : alu "NOT" x y = ALU_NOT x y := rfl
theorem alu_ADD (x y : Int) : alu "ADD" x y = ALU_ADD x y := rfl
theorem alu_SUB (x y : Int) : alu "SUB" x y = ALU_SUB x y := rfl
theorem alu_MUL (x y : Int) : alu "MUL" x y = ALU_MUL x y := rfl
theorem alu_DIV (x y : Int) : alu "DIV" x y = ALU_DIV x y := rfl
theorem alu_MOD (x y : Int) : alu "MOD" x y = ALU_MOD x y := rfl
theorem alu_CMP (x y : Int) : alu "CMP" x y = ALU_CMP x y := rfl
theorem alu_AND (x y : Int) : alu "AND" x y = ALU_AND x y := rfl
theorem alu_OR (x y : Int) : alu "OR" x y = ALU_OR x y := rfl
theorem alu_XOR (x y : Int) : alu "XOR" x y = ALU_XOR x y := rfl
theorem alu_SHL (x y : Int) : alu "SHL" x y = ALU_SHL x y := rfl
theorem alu_SHR (x y : Int) : alu "SHR" x y = ALU_SHR x y := rfl

/-! ### Closed-form evaluation of the ALU operations used by the claims -/

theorem ALU_ADD_eval (c : CPU) (a b : Int) (h0a : 0 ≤ a)
    (hia : a < (c.R.length : Int)) (h0b : 0 ≤ b)
    (hib : b < (c.R.length : Int)) :
    ALU_ADD a b c
      = ({c with R := (c.R.set a.toNat
            ((c.R.getD a.toNat 0 + c.R.getD b.toNat 0).emod 256))}, [],
         Except.ok ()) := by
  simp only [ALU_ADD, PyM.bind_def, PyM.bind, Rget_in c a h0a hia,
    Rget_in c b h0b hib, Rset_in c a _ h0a hia, List.nil_append]

theorem ALU_DIV_zero (c : CPU) (a b : Int) (h0b : 0 ≤ b)
    (hib : b < (c.R.length : Int)) (hz : c.R.getD b.toNat 0 = 0) :
    ALU_DIV a b c = (c, [], Except.error Err.divisionByZero) := by
  simp only [ALU_DIV, PyM.bind_def, PyM.bind, Rget_in c b h0b hib,
    if_pos hz, raise, List.nil_append]

theorem ALU_DIV_eval (c : CPU) (a b : Int) (h0a : 0 ≤ a)
    (hia : a < (c.R.length : Int)) (h0b : 0 ≤ b)
    (hib : b < (c.R.length : Int)) (hz : c.R.getD b.toNat 0 ≠ 0) :
    ALU_DIV a b c
      = ({c with R := (c.R.set a.toNat
            (((c.R.getD a.toNat 0).fdiv (c.R.getD b.toNat 0)).emod 256))},
         [], Except.ok ()) := by
  simp only [ALU_DIV, PyM.bind_def, PyM.bind, Rget_in c b h0b hib,
    Rget_in c a h0a hia, if_neg hz, Rset_in c a _ h0a hia, List.nil_append]

theorem ALU_MOD_zero (c : CPU) (a b : Int) (h0b : 0 ≤ b)
    (hib : b < (c.R.length : Int)) (hz : c.R.getD b.toNat 0 = 0) :
    ALU_MOD a b c = (c, [], Except.error Err.divisionByZero) := by
  simp only [ALU_MOD, PyM.bind_def, PyM.bind, Rget_in c b h0b hib,
    if_pos hz, raise, List.nil_append]

theorem ALU_MOD_eval (c : CPU) (a b : Int) (h0a : 0 ≤ a)
    (hia : a < (c.R.length : Int)) (h0b : 0 ≤ b)
    (hib : b < (c.R.length : Int)) (hz : c.R.getD b.toNat 0 ≠ 0) :
    ALU_MOD a b c
      = ({c with R := (c.R.set a.toNat
            (((c.R.getD a.toNat 0).fmod (c.R.getD b.toNat 0)).emod 256))},
         [], Except.ok ()) := by
  simp only [ALU_MOD, PyM.bind_def, PyM.bind, Rget_in c b h0b hib,
    Rget_in c a h0a hia, if_neg hz, Rset_in c a _ h0a hia, List.nil_append]

theorem pyShl_eval (x n : Int) (hn : 0 ≤ n) :
    pyShl x n = Except.ok (x * 2 ^ n.toNat) := by
  simp only [pyShl, if_neg (by omega : ¬ n < 0)]

theorem pyShr_eval (x n : Int) (hn : 0 ≤ n) :
    pyShr x n = Except.ok (Int.fdiv x (2 ^ n.toNat)) := by
  simp only [pyShr, if_neg (by omega : ¬ n < 0)]

theorem ALU_SHL_eval (c : CPU) (a b : Int) (h0a : 0 ≤ a)
    (hia : a < (c.R.length : Int)) (h0b : 0 ≤ b)
    (hib : b < (c.R.length : Int)) (hrb : 0 ≤ c.R.getD b.toNat 0) :
    ALU_SHL a b c
      = ({c with R := (c.R.set a.toNat
            ((c.R.getD a.toNat 0 * 2 ^ (c.R.getD b.toNat 0).toNat).emod
              256))}, [], Except.ok ()) := by
  simp only [ALU_SHL, PyM.bind_def, PyM.bind, Rget_in c a h0a hia,
    Rget_in c b h0b hib, pyShl_eval _ _ hrb, liftE,
    Rset_in c a _ h0a hia, List.nil_append]

theorem ALU_SHR_eval (c : CPU) (a b : Int) (h0a : 0 ≤ a)
    (hia : a < (c.R.length : Int)) (h0b : 0 ≤ b)
    (hib : b < (c.R.length : Int)) (hrb : 0 ≤ c.R.getD b.toNat 0) :
    ALU_SHR a b c
      = ({c with R := (c.R.set a.toNat
            (Int.fdiv (c.R.getD a.toNat 0)
              (2 ^ (c.R.getD b.toNat 0).toNat)))}, [], Except.ok ()) := by
  simp only [ALU_SHR, PyM.bind_def, PyM.bind, Rget_in c a h0a hia,
    Rget_in c b h0b hib, pyShr_eval _ _ hrb, liftE,
    Rset_in c a _ h0a hia, List.nil_append]

theorem ALU_CMP_eval (c : CPU) (a b : Int) (h0a : 0 ≤ a)
    (hia : a < (c.R.length : Int)) (h0b : 0 ≤ b)
    (hib : b < (c.R.length : Int)) :
    ALU_CMP a b c
      = ({c with FL := (set_flag_val
            (set_flag_val (set_flag_val (set_flag_val c.FL 2 false) 1 false)
              0 false)
            (if c.R.getD a.toNat 0 < c.R.getD b.toNat 0 then 2
             else if c.R.getD b.toNat 0 < c.R.getD a.toNat 0 then 1 else 0)
            true)}, [], Except.ok ()) := by
  rcases lt_trichotomy (c.R.getD a.toNat 0) (c.R.getD b.toNat 0) with h | h | h
  · simp only [ALU_CMP, PyM.bind_def, PyM.bind, set_L, set_G, set_E, set_flag,
      modifyCPU, gt_iff_lt, Rget_in, h0a, hia, h0b, hib, if_pos h,
      List.nil_append]
  · simp only [ALU_CMP, PyM.bind_def, PyM.bind, set_L, set_G, set_E, set_flag,
      modifyCPU, gt_iff_lt, Rget_in, h0a, hia, h0b, hib,
      if_neg (show ¬ c.R.getD a.toNat 0 < c.R.getD b.toNat 0 by omega),
      if_neg (show ¬ c.R.getD b.toNat 0 < c.R.getD a.toNat 0 by omega),
      List.nil_append]
  · simp only [ALU_CMP, PyM.bind_def, PyM.bind, set_L, set_G, set_E, set_flag,
      modifyCPU, gt_iff_lt, Rget_in, h0a, hia, h0b, hib,
      if_neg (show ¬ c.R.getD a.toNat 0 < c.R.getD b.toNat 0 by omega),
      if_pos h, List.nil_append]

/-- An out-of-range `reg_a` makes `ALU_CMP` fail with IndexError, but only
after its three `set_flag` clears have run: the returned state has L, G, E
cleared out of `FL`, for every starting state. -/
theorem ALU_CMP_oob_clears_flags (c : CPU) (a b : Int)
    (hlen : c.R.length = 8) (ha8 : 8 ≤ a) :
    ALU_CMP a b c
      = ({c with FL := (set_flag_val
            (set_flag_val (set_flag_val c.FL 2 false) 1 false) 0 false)},
         [], Except.error Err.indexError) := by
  have hoob : (c.R.length : Int) ≤ a := by omega
  simp only [ALU_CMP, PyM.bind_def, PyM.bind, set_L, set_G, set_E, set_flag,
    modifyCPU, Rget_oob, hoob, List.nil_append]

set_option maxRecDepth 100000

/-! ### Flag arithmetic after a CMP, checked over all 256 byte values of FL -/

theorem cmp_flags_L (f : Fin 256) :
    flag_val (set_flag_val
        (set_flag_val (set_flag_val (set_flag_val (f : Int) 2 false) 1 false)
          0 false) 2 true) 2 = 1
    ∧ flag_val (set_flag_val
        (set_flag_val (set_flag_val (set_flag_val (f : Int) 2 false) 1 false)
          0 false) 2 true) 1 = 0
    ∧ flag_val (set_flag_val
        (set_flag_val (set_flag_val (set_flag_val (f : Int) 2 false) 1 false)
          0 false) 2 true) 0 = 0 := by
  revert f
  decide

theorem cmp_flags_G (f : Fin 256) :
    flag_val (set_flag_val
        (set_flag_val (set_flag_val (set_flag_val (f : Int) 2 false) 1 false)
          0 false) 1 true) 1 = 1
    ∧ flag_val (set_flag_val
        (set_flag_val (set_flag_val (set_flag_val (f : Int) 2 false) 1 false)
          0 false) 1 true) 2 = 0
    ∧ flag_val (set_flag_val
        (set_flag_val (set_flag_val (set_flag_val (f : Int) 2 false) 1 false)
          0 false) 1 true) 0 = 0 := by
  revert f
  decide

theorem cmp_flags_E (f : Fin 256) :
    flag_val (set_flag_val
        (set_flag_val (set_flag_val (set_flag_val (f : Int) 2 false) 1 false)
          0 false) 0 true) 0 = 1
    ∧ flag_val (set_flag_val
        (set_flag_val (set_flag_val (set_flag_val (f : Int) 2 false) 1 false)
          0 false) 0 true) 2 = 0
    ∧ flag_val (set_flag_val
        (set_flag_val (set_flag_val (set_flag_val (f : Int) 2 false) 1 false)
          0 false) 0 true) 1 = 0 := by
  revert f
  decide

/-! ### The claims -/

/-- Claim C1: the claim states that for every machine state and 8-bit value
`v`, `push(v)` followed by `pop()` completes without error, returns
`v & 0xFF` and restores SP.  On the code this is false for every state and
every `v`: `SP` is declared without `@property`, so the first statement of
`push`, `self.set_SP((self.SP - 1) & 255)`, subtracts an int from a bound
method object and raises TypeError before anything is written; the state is
returned unchanged and no value is produced. -/
theorem push_pop_TypeError (c : CPU) (v : Int) :
    (do push v; pop : PyM Int) c = (c, [], Except.error Err.typeError) := rfl

/-- Claim C2: the claim states that a defined opcode whose handler does not
set `PC_SET` advances PC by 3 / 2 / 1 according to bits 7 and 6 of the
opcode, NOP advancing by exactly 1.  On the code the 1-byte case is absent:
executing NOP (opcode `0x00`, both high bits clear) from the initial state
completes without error and leaves PC at 0 instead of 1 — `step` adds 2
when bit 6 is set and 3 when bit 7 is set, and otherwise adds nothing. -/
theorem step_NOP_PC_unchanged :
    (boot [0x00]).2.2 = Except.ok () ∧ (boot [0x00]).1.PC = 0 := by
  decide

/-- Claim C3 (counterexample): executing ADD (opcode `0xA0`) with operand
byte `a = 8` from the initial state makes the step fail with IndexError,
refuting the claim that ALU register indices are taken mod 8 and that a
step with an operand byte of 8 or larger does not fail. -/
theorem step_ADD_operand8_IndexError :
    (boot [0xA0, 8, 0]).2.2 = Except.error Err.indexError := by
  decide

/-- Claim C3 (amended): the ALU handlers pass the operand bytes to the
register file without any mod-8 masking.  With `b` in range and `8 ≤ a`,
every one of the fourteen ALU operations fails with an exception (IndexError
from the out-of-range register access, except that DIV/MOD with `R[b] = 0`
raise their division error first); with both operand bytes below 8 the
access is in bounds and ADD completes, using the operand bytes themselves
as the register indices. -/
theorem alu_register_indices_unmasked (c : CPU) (a b : Int)
    (hlen : c.R.length = 8) (h0b : 0 ≤ b) (hb : b < 8) (ha8 : 8 ≤ a) :
    (∀ name ∈ aluOpNames, ∃ e, ((alu name a b) c).2.2 = Except.error e)
    ∧ (∀ a2 b2 : Int, 0 ≤ a2 → a2 < 8 → 0 ≤ b2 → b2 < 8 →
        (alu "ADD" a2 b2) c
          = ({c with R := (c.R.set a2.toNat
              ((c.R.getD a2.toNat 0 + c.R.getD b2.toNat 0).emod 256))}, [],
             Except.ok ())) := by
  have hoob : (c.R.length : Int) ≤ a := by omega
  have hib : b < (c.R.length : Int) := by omega
  constructor
  · intro name hname
    fin_cases hname
    · exact ⟨Err.indexError, by rw [alu_INC]; simp only [ALU_INC,
        PyM.bind_def, PyM.bind, Rget_oob c a hoob]⟩
    · exact ⟨Err.indexError, by rw [alu_DEC]; simp only [ALU_DEC,
        PyM.bind_def, PyM.bind, Rget_oob c a hoob]⟩
    · exact ⟨Err.indexError, by rw [alu_NOT]; simp only [ALU_NOT,
        PyM.bind_def, PyM.bind, Rget_oob c a hoob]⟩
    · exact ⟨Err.indexError, by rw [alu_ADD]; simp only [ALU_ADD,
        PyM.bind_def, PyM.bind, Rget_oob c a hoob]⟩
    · exact ⟨Err.indexError, by rw [alu_SUB]; simp only [ALU_SUB,
        PyM.bind_def, PyM.bind, Rget_oob c a hoob]⟩
    · exact ⟨Err.indexError, by rw [alu_MUL]; simp only [ALU_MUL,
        PyM.bind_def, PyM.bind, Rget_oob c a hoob]⟩
    · rcases eq_or_ne (c.R.getD b.toNat 0) 0 with hz | hz
      · exact ⟨Err.divisionByZero,
          by rw [alu_DIV, ALU_DIV_zero c a b h0b hib hz]⟩
      · exact ⟨Err.indexError, by rw [alu_DIV]; simp only [ALU_DIV,
          PyM.bind_def, PyM.bind, Rget_in c b h0b hib, if_neg hz,
          Rget_oob c a hoob]⟩
    · rcases eq_or_ne (c.R.getD b.toNat 0) 0 with hz | hz
      · exact ⟨Err.divisionByZero,
          by rw [alu_MOD, ALU_MOD_zero c a b h0b hib hz]⟩
      · exact ⟨Err.indexError, by rw [alu_MOD]; simp only [ALU_MOD,
          PyM.bind_def, PyM.bind, Rget_in c b h0b hib, if_neg hz,
          Rget_oob c a hoob]⟩
    · exact ⟨Err.indexError, by rw [alu_CMP]; simp only [ALU_CMP,
        PyM.bind_def, PyM.bind, set_L, set_G, set_E, set_flag, modifyCPU,
        Rget_oob, hoob]⟩
    · exact ⟨Err.indexError, by rw [alu_AND]; simp only [ALU_AND,
        PyM.bind_def, PyM.bind, Rget_oob c a hoob]⟩
    · exact ⟨Err.indexError, by rw [alu_OR]; simp only [ALU_OR,
        PyM.bind_def, PyM.bind, Rget_oob c a hoob]⟩
    · exact ⟨Err.indexError, by rw [alu_XOR]; simp only [ALU_XOR,
        PyM.bind_def, PyM.bind, Rget_oob c a hoob]⟩
    · exact ⟨Err.indexError, by rw [alu_SHL]; simp only [ALU_SHL,
        PyM.bind_def, PyM.bind, Rget_oob c a hoob]⟩
    · exact ⟨Err.indexError, by rw [alu_SHR]; simp only [ALU_SHR,
        PyM.bind_def, PyM.bind, Rget_oob c a hoob]⟩
  · intro a2 b2 h0a2 ha2 h0b2 hb2
    rw [alu_ADD, ALU_ADD_eval c a2 b2 h0a2 (by omega) h0b2 (by omega)]

/-- Claim C3 (witness): the amended theorem applied at the initial machine
with operand bytes `a = 8`, `b = 0`. -/
theorem alu_register_indices_unmasked_witness :
    initialCPU.R.length = 8 ∧ (0 : Int) ≤ 0 ∧ (0 : Int) < 8
    ∧ (8 : Int) ≤ 8
    ∧ ((∀ name ∈ aluOpNames,
          ∃ e, ((alu name 8 0) initialCPU).2.2 = Except.error e)
       ∧ (∀ a2 b2 : Int, 0 ≤ a2 → a2 < 8 → 0 ≤ b2 → b2 < 8 →
           (alu "ADD" a2 b2) initialCPU
             = ({initialCPU with R := (initialCPU.R.set a2.toNat
                 ((initialCPU.R.getD a2.toNat 0
                   + initialCPU.R.getD b2.toNat 0).emod 256))}, [],
                Except.ok ()))) :=
  ⟨by decide, by decide, by decide, by decide,
   alu_register_indices_unmasked initialCPU 8 0 (by decide) (by decide)
     (by decide) (by decide)⟩

/-- Claim C4: the claim states that NOT sets `R[a]` to `(~R[a]) mod 256`,
i.e. `255 - R[a]`.  On the code `ALU_NOT` stores `~R[a]` without the
`& 0xFF` mask that the register documentation in the source itself demands:
executing NOT R0 (opcode `0x69`) from the initial state (R0 = 0) completes
and leaves `R[0] = -1` instead of 255. -/
theorem NOT_stores_negative :
    (boot [0x69, 0]).2.2 = Except.ok ()
    ∧ (boot [0x69, 0]).1.R = [-1, 0, 0, 0, 0, 0, 0, 0xF4] := by
  decide

/-- Claim C5: the claim states that ST completes and writes `R[b]` to
`RAM[R[a]]` through MAR/MDR.  On the code the write never happens: `ST`
calls `self.ram_write()` with no arguments while `ram_write(self, value,
address)` requires two, so Python raises TypeError before the body runs.
Executing ST R0,R1 (opcode `0x84`) from the initial state fails with
TypeError and RAM still holds exactly the loaded program. -/
theorem ST_TypeError_no_write :
    (boot [0x84, 0, 1]).2.2 = Except.error Err.typeError
    ∧ (boot [0x84, 0, 1]).1.RAM
        = (0x84 : Int) :: 0 :: 1 :: List.replicate 253 0 := by
  decide

/-- Claim C6: the claim states that after every completed step every
register holds a value in `[0, 255]`.  On the code this is false: the step
executing NOT R1 (opcode `0x69`, operand 1) from the initial state — a
reachable state — completes without error, yet afterwards some register
holds a negative value (`R[1] = ~0 = -1`). -/
theorem step_NOT_breaks_register_invariant :
    (boot [0x69, 1]).2.2 = Except.ok ()
    ∧ ∃ v ∈ (boot [0x69, 1]).1.R, v < 0 := by
  decide

/-- Claim C8 (counterexample): the program `CMP R0,R0; CMP` with operand
byte 8.  The first step completes and sets E (`FL = 1`, a reachable state
with a flag set).  The second step executes CMP with operand byte `a = 8`:
it does not produce a state with exactly one of E, G, L set — `ALU_CMP`
first runs its three `set_flag` clears (erasing the E that was set) and
then the unmasked register read raises IndexError, so the step fails with
`FL = 0` and all three flags clear. -/
theorem step_CMP_operand8_clears_flags :
    ((do load [0xA7, 0, 0, 0xA7, 8, 0]; step : PyM Unit) initialCPU).1.E = 1
    ∧ ((do load [0xA7, 0, 0, 0xA7, 8, 0]; step; step : PyM Unit)
        initialCPU).2.2 = Except.error Err.indexError
    ∧ ((do load [0xA7, 0, 0, 0xA7, 8, 0]; step; step : PyM Unit)
        initialCPU).1.FL = 0
    ∧ ((do load [0xA7, 0, 0, 0xA7, 8, 0]; step; step : PyM Unit)
        initialCPU).1.E = 0
    ∧ ((do load [0xA7, 0, 0, 0xA7, 8, 0]; step; step : PyM Unit)
        initialCPU).1.G = 0
    ∧ ((do load [0xA7, 0, 0, 0xA7, 8, 0]; step; step : PyM Unit)
        initialCPU).1.L = 0 := by
  decide

/-- Claim C7: for in-range register indices and byte-valued registers,
DIV and MOD with `R[b] = 0` fail with the division-by-zero error and with
`R[b] ≠ 0` store `floor(R[a]/R[b])` resp. `R[a] mod R[b]` with no error;
and whenever a run fails with that error, the (spec-modelled) host handler
reports the diagnostic and asserts halt, so the error is fatal to the
running program. -/
theorem DIV_MOD_by_zero_fatal (c : CPU) (a b : Int)
    (hlen : c.R.length = 8) (hreg : ∀ v ∈ c.R, 0 ≤ v ∧ v ≤ 255)
    (h0a : 0 ≤ a) (ha : a < 8) (h0b : 0 ≤ b) (hb : b < 8) :
    (c.R.getD b.toNat 0 = 0 →
      (alu "DIV" a b) c = (c, [], Except.error Err.divisionByZero)
      ∧ (alu "MOD" a b) c = (c, [], Except.error Err.divisionByZero))
    ∧ (c.R.getD b.toNat 0 ≠ 0 →
      (alu "DIV" a b) c
        = ({c with R := (c.R.set a.toNat
            ((c.R.getD a.toNat 0).fdiv (c.R.getD b.toNat 0)))}, [],
           Except.ok ())
      ∧ (alu "MOD" a b) c
        = ({c with R := (c.R.set a.toNat
            ((c.R.getD a.toNat 0).fmod (c.R.getD b.toNat 0)))}, [],
           Except.ok ()))
    ∧ (∀ (fuel : Nat) (c0 : CPU),
        ((run fuel) c0).2.2 = Except.error Err.divisionByZero →
        (host_run fuel c0).1.HALT = true
        ∧ ∃ pre, (host_run fuel c0).2
            = pre ++ ["error: Division by zero error"]) := by
  have hia : a < (c.R.length : Int) := by omega
  have hib : b < (c.R.length : Int) := by omega
  have hra := getD_R_bounds c a hlen hreg h0a ha
  have hrb := getD_R_bounds c b hlen hreg h0b hb
  refine ⟨?_, ?_, ?_⟩
  · intro hz
    exact ⟨by rw [alu_DIV, ALU_DIV_zero c a b h0b hib hz],
      by rw [alu_MOD, ALU_MOD_zero c a b h0b hib hz]⟩
  · intro hz
    have hrb1 : 0 < c.R.getD b.toNat 0 := by omega
    constructor
    · have hfe : (c.R.getD a.toNat 0).fdiv (c.R.getD b.toNat 0)
          = c.R.getD a.toNat 0 / c.R.getD b.toNat 0 :=
        Int.fdiv_eq_ediv _ (le_of_lt hrb1)
      have h1 : 0 ≤ (c.R.getD a.toNat 0).fdiv (c.R.getD b.toNat 0) :=
        Int.fdiv_nonneg hra.1 (le_of_lt hrb1)
      have h2 : (c.R.getD a.toNat 0).fdiv (c.R.getD b.toNat 0) < 256 := by
        rw [hfe]
        have := Int.ediv_le_self (c.R.getD b.toNat 0) hra.1
        omega
      have hc : ((c.R.getD a.toNat 0).fdiv (c.R.getD b.toNat 0)).emod 256
          = (c.R.getD a.toNat 0).fdiv (c.R.getD b.toNat 0) :=
        Int.emod_eq_of_lt h1 h2
      rw [alu_DIV, ALU_DIV_eval c a b h0a hia h0b hib hz, hc]
    · have hme : (c.R.getD a.toNat 0).fmod (c.R.getD b.toNat 0)
          = c.R.getD a.toNat 0 % c.R.getD b.toNat 0 :=
        Int.fmod_eq_emod _ (le_of_lt hrb1)
      have h1 : 0 ≤ (c.R.getD a.toNat 0).fmod (c.R.getD b.toNat 0) := by
        rw [hme]
        exact Int.emod_nonneg _ (by omega)
      have h2 : (c.R.getD a.toNat 0).fmod (c.R.getD b.toNat 0) < 256 := by
        rw [hme]
        have := Int.emod_lt_of_pos (c.R.getD a.toNat 0) hrb1
        omega
      have hc : ((c.R.getD a.toNat 0).fmod (c.R.getD b.toNat 0)).emod 256
          = (c.R.getD a.toNat 0).fmod (c.R.getD b.toNat 0) :=
        Int.emod_eq_of_lt h1 h2
      rw [alu_MOD, ALU_MOD_eval c a b h0a hia h0b hib hz, hc]
  · intro fuel c0 h
    have hs : "error: " ++ errMsg Err.divisionByZero
        = "error: Division by zero error" := by decide
    constructor
    · simp only [host_run, h]
    · refine ⟨((run fuel) c0).2.1, ?_⟩
      simp only [host_run, h, hs]

/-- Claim C7 (witness): the theorem applied at the initial machine with
`a = 0`, `b = 1`; there `R[1] = 0`, so the division-by-zero branch is the
live one. -/
theorem DIV_MOD_by_zero_fatal_witness :
    initialCPU.R.length = 8
    ∧ (∀ v ∈ initialCPU.R, 0 ≤ v ∧ v ≤ 255)
    ∧ (0 : Int) ≤ 0 ∧ (0 : Int) < 8 ∧ (0 : Int) ≤ 1 ∧ (1 : Int) < 8
    ∧ ((initialCPU.R.getD (1 : Int).toNat 0 = 0 →
        (alu "DIV" 0 1) initialCPU
          = (initialCPU, [], Except.error Err.divisionByZero)
        ∧ (alu "MOD" 0 1) initialCPU
          = (initialCPU, [], Except.error Err.divisionByZero))
      ∧ (initialCPU.R.getD (1 : Int).toNat 0 ≠ 0 →
        (alu "DIV" 0 1) initialCPU
          = ({initialCPU with R := (initialCPU.R.set (0 : Int).toNat
              ((initialCPU.R.getD (0 : Int).toNat 0).fdiv
                (initialCPU.R.getD (1 : Int).toNat 0)))}, [],
             Except.ok ())
        ∧ (alu "MOD" 0 1) initialCPU
          = ({initialCPU with R := (initialCPU.R.set (0 : Int).toNat
              ((initialCPU.R.getD (0 : Int).toNat 0).fmod
                (initialCPU.R.getD (1 : Int).toNat 0)))}, [],
             Except.ok ()))
      ∧ (∀ (fuel : Nat) (c0 : CPU),
          ((run fuel) c0).2.2 = Except.error Err.divisionByZero →
          (host_run fuel c0).1.HALT = true
          ∧ ∃ pre, (host_run fuel c0).2
              = pre ++ ["error: Division by zero error"])) :=
  ⟨by decide, by decide, by decide, by decide, by decide, by decide,
   DIV_MOD_by_zero_fatal initialCPU 0 1 (by decide) (by decide) (by decide)
     (by decide) (by decide) (by decide)⟩

/-- Claim C8 (amended): after every completed execution of CMP with
register-operand bytes below 8 (the code does not mask ALU indices mod 8;
an operand byte of 8 or larger raises IndexError instead of completing),
exactly one of the flags E, G, L is set and the other two are clear:
L when `R[a] < R[b]`, G when `R[a] > R[b]`, E when they are equal. -/
theorem CMP_sets_exactly_one_flag (c : CPU) (a b : Int)
    (hlen : c.R.length = 8) (h0a : 0 ≤ a) (ha : a < 8)
    (h0b : 0 ≤ b) (hb : b < 8) (hFL0 : 0 ≤ c.FL) (hFL : c.FL < 256) :
    ((alu "CMP" a b) c).2.2 = Except.ok ()
    ∧ (c.R.getD a.toNat 0 < c.R.getD b.toNat 0 →
        ((alu "CMP" a b) c).1.L = 1 ∧ ((alu "CMP" a b) c).1.G = 0
          ∧ ((alu "CMP" a b) c).1.E = 0)
    ∧ (c.R.getD b.toNat 0 < c.R.getD a.toNat 0 →
        ((alu "CMP" a b) c).1.G = 1 ∧ ((alu "CMP" a b) c).1.L = 0
          ∧ ((alu "CMP" a b) c).1.E = 0)
    ∧ (c.R.getD a.toNat 0 = c.R.getD b.toNat 0 →
        ((alu "CMP" a b) c).1.E = 1 ∧ ((alu "CMP" a b) c).1.L = 0
          ∧ ((alu "CMP" a b) c).1.G = 0) := by
  have hia : a < (c.R.length : Int) := by omega
  have hib : b < (c.R.length : Int) := by omega
  have hf256 : c.FL.toNat < 256 := by omega
  have hfl : c.FL = ((⟨c.FL.toNat, hf256⟩ : Fin 256) : Int) := by
    simp [Int.toNat_of_nonneg hFL0]
  rw [alu_CMP, ALU_CMP_eval c a b h0a hia h0b hib]
  refine ⟨rfl, ?_, ?_, ?_⟩
  · intro h
    rw [if_pos h]
    simp only [CPU.L, CPU.G, CPU.E, CPU.flag]
    rw [hfl]
    exact ⟨(cmp_flags_L ⟨c.FL.toNat, hf256⟩).1,
      (cmp_flags_L ⟨c.FL.toNat, hf256⟩).2.1,
      (cmp_flags_L ⟨c.FL.toNat, hf256⟩).2.2⟩
  · intro h
    rw [if_neg (show ¬ c.R.getD a.toNat 0 < c.R.getD b.toNat 0 by omega),
      if_pos h]
    simp only [CPU.L, CPU.G, CPU.E, CPU.flag]
    rw [hfl]
    exact ⟨(cmp_flags_G ⟨c.FL.toNat, hf256⟩).1,
      (cmp_flags_G ⟨c.FL.toNat, hf256⟩).2.1,
      (cmp_flags_G ⟨c.FL.toNat, hf256⟩).2.2⟩
  · intro h
    rw [if_neg (show ¬ c.R.getD a.toNat 0 < c.R.getD b.toNat 0 by omega),
      if_neg (show ¬ c.R.getD b.toNat 0 < c.R.getD a.toNat 0 by omega)]
    simp only [CPU.L, CPU.G, CPU.E, CPU.flag]
    rw [hfl]
    exact ⟨(cmp_flags_E ⟨c.FL.toNat, hf256⟩).1,
      (cmp_flags_E ⟨c.FL.toNat, hf256⟩).2.1,
      (cmp_flags_E ⟨c.FL.toNat, hf256⟩).2.2⟩

/-- Claim C8 (witness): the amended theorem applied at the initial machine
with `a = 0`, `b = 1` (equal registers, so the E branch is the live one). -/
theorem CMP_sets_exactly_one_flag_witness :
    initialCPU.R.length = 8
    ∧ (0 : Int) ≤ 0 ∧ (0 : Int) < 8 ∧ (0 : Int) ≤ 1 ∧ (1 : Int) < 8
    ∧ 0 ≤ initialCPU.FL ∧ initialCPU.FL < 256
    ∧ (((alu "CMP" 0 1) initialCPU).2.2 = Except.ok ()
      ∧ (initialCPU.R.getD (0 : Int).toNat 0
            < initialCPU.R.getD (1 : Int).toNat 0 →
          ((alu "CMP" 0 1) initialCPU).1.L = 1
            ∧ ((alu "CMP" 0 1) initialCPU).1.G = 0
            ∧ ((alu "CMP" 0 1) initialCPU).1.E = 0)
      ∧ (initialCPU.R.getD (1 : Int).toNat 0
            < initialCPU.R.getD (0 : Int).toNat 0 →
          ((alu "CMP" 0 1) initialCPU).1.G = 1
            ∧ ((alu "CMP" 0 1) initialCPU).1.L = 0
            ∧ ((alu "CMP" 0 1) initialCPU).1.E = 0)
      ∧ (initialCPU.R.getD (0 : Int).toNat 0
            = initialCPU.R.getD (1 : Int).toNat 0 →
          ((alu "CMP" 0 1) initialCPU).1.E = 1
            ∧ ((alu "CMP" 0 1) initialCPU).1.L = 0
            ∧ ((alu "CMP" 0 1) initialCPU).1.G = 0)) :=
  ⟨by decide, by decide, by decide, by decide, by decide, by decide,
   by decide,
   CMP_sets_exactly_one_flag initialCPU 0 1 (by decide) (by decide)
     (by decide) (by decide) (by decide) (by decide) (by decide)⟩

/-- Claim C9: for in-range register indices and byte-valued registers,
SHL stores `(R[a] << R[b]) mod 256` and SHR stores `R[a] >> R[b]` with
zero fill when `R[b] < 8`, and both store 0 when `R[b] ≥ 8`. -/
theorem SHL_SHR_semantics (c : CPU) (a b : Int)
    (hlen : c.R.length = 8) (hreg : ∀ v ∈ c.R, 0 ≤ v ∧ v ≤ 255)
    (h0a : 0 ≤ a) (ha : a < 8) (h0b : 0 ≤ b) (hb : b < 8) :
    (8 ≤ c.R.getD b.toNat 0 →
      (alu "SHL" a b) c = ({c with R := (c.R.set a.toNat 0)}, [],
        Except.ok ())
      ∧ (alu "SHR" a b) c = ({c with R := (c.R.set a.toNat 0)}, [],
        Except.ok ()))
    ∧ (c.R.getD b.toNat 0 < 8 →
      (alu "SHL" a b) c
        = ({c with R := (c.R.set a.toNat
            ((c.R.getD a.toNat 0 * 2 ^ (c.R.getD b.toNat 0).toNat).emod
              256))}, [], Except.ok ())
      ∧ (alu "SHR" a b) c
        = ({c with R := (c.R.set a.toNat
            (Int.fdiv (c.R.getD a.toNat 0)
              (2 ^ (c.R.getD b.toNat 0).toNat)))}, [], Except.ok ())) := by
  have hia : a < (c.R.length : Int) := by omega
  have hib : b < (c.R.length : Int) := by omega
  have hra := getD_R_bounds c a hlen hreg h0a ha
  have hrb := getD_R_bounds c b hlen hreg h0b hb
  constructor
  · intro h8
    have hn8 : 8 ≤ (c.R.getD b.toNat 0).toNat := by omega
    constructor
    · rw [alu_SHL, ALU_SHL_eval c a b h0a hia h0b hib hrb.1]
      have hdvd : (256 : Int)
          ∣ c.R.getD a.toNat 0 * 2 ^ (c.R.getD b.toNat 0).toNat := by
        apply Dvd.dvd.mul_left
        calc (256 : Int) = 2 ^ 8 := by norm_num
        _ ∣ 2 ^ (c.R.getD b.toNat 0).toNat := pow_dvd_pow 2 hn8
      have h0 : (c.R.getD a.toNat 0
          * 2 ^ (c.R.getD b.toNat 0).toNat).emod 256 = 0 :=
        Int.emod_eq_zero_of_dvd hdvd
      rw [h0]
    · rw [alu_SHR, ALU_SHR_eval c a b h0a hia h0b hib hrb.1]
      have hlt : c.R.getD a.toNat 0 < 2 ^ (c.R.getD b.toNat 0).toNat := by
        calc c.R.getD a.toNat 0 ≤ 255 := hra.2
        _ < 2 ^ 8 := by norm_num
        _ ≤ 2 ^ (c.R.getD b.toNat 0).toNat := by
            exact pow_le_pow_right₀ one_le_two hn8
      rw [Int.fdiv_eq_ediv _ (by positivity),
        Int.ediv_eq_zero_of_lt hra.1 hlt]
  · intro h8
    exact ⟨by rw [alu_SHL, ALU_SHL_eval c a b h0a hia h0b hib hrb.1],
      by rw [alu_SHR, ALU_SHR_eval c a b h0a hia h0b hib hrb.1]⟩

/-- Claim C9 (witness): the theorem applied at the initial machine with
`a = 0`, `b = 1`; there `R[1] = 0 < 8`, so the in-range branch is the live
one. -/
theorem SHL_SHR_semantics_witness :
    initialCPU.R.length = 8
    ∧ (∀ v ∈ initialCPU.R, 0 ≤ v ∧ v ≤ 255)
    ∧ (0 : Int) ≤ 0 ∧ (0 : Int) < 8 ∧ (0 : Int) ≤ 1 ∧ (1 : Int) < 8
    ∧ ((8 ≤ initialCPU.R.getD (1 : Int).toNat 0 →
        (alu "SHL" 0 1) initialCPU
          = ({initialCPU with
              R := (initialCPU.R.set (0 : Int).toNat 0)}, [],
             Except.ok ())
        ∧ (alu "SHR" 0 1) initialCPU
          = ({initialCPU with
              R := (initialCPU.R.set (0 : Int).toNat 0)}, [],
             Except.ok ()))
      ∧ (initialCPU.R.getD (1 : Int).toNat 0 < 8 →
        (alu "SHL" 0 1) initialCPU
          = ({initialCPU with R := (initialCPU.R.set (0 : Int).toNat
              ((initialCPU.R.getD (0 : Int).toNat 0
                * 2 ^ (initialCPU.R.getD (1 : Int).toNat 0).toNat).emod
                256))}, [], Except.ok ())
        ∧ (alu "SHR" 0 1) initialCPU
          = ({initialCPU with R := (initialCPU.R.set (0 : Int).toNat
              (Int.fdiv (initialCPU.R.getD (0 : Int).toNat 0)
                (2 ^ (initialCPU.R.getD (1 : Int).toNat 0).toNat)))}, [],
             Except.ok ()))) :=
  ⟨by decide, by decide, by decide, by decide, by decide, by decide,
   SHL_SHR_semantics initialCPU 0 1 (by decide) (by decide) (by decide)
     (by decide) (by decide) (by decide)⟩

/-- Claim C10: for every loaded program and every machine state, the output
trace of `run` begins with the line `Running program...` — it is printed
before the first `step` executes, so it precedes every PRN/PRA emission and
the instruction output is never the whole of stdout. -/
theorem run_output_begins_with_banner (fuel : Nat) (c : CPU) :
    ∃ rest, ((run fuel) c).2.1 = "Running program...\n" :: rest := by
  have hb : "Running program..." ++ "\n" = "Running program...\n" := by
    decide
  refine ⟨((runLoop fuel) c).2.1, ?_⟩
  simp only [run, PyM.bind_def, PyM.bind, py_print, hb, List.cons_append,
    List.nil_append]

end LS8
